import Mathlib

/-!
Shallow embedding of the Medicine Tracker API (`src/Medicine Tracker/app.py`).

The SQLite store is modelled as in-memory lists of rows; each Flask handler
becomes a pure function from a request and a database state to a new state
and a response.  The wall clock (`datetime.now()` and its `strftime`
renderings) is passed in explicitly as string parameters, exactly as the
handlers render it.  SQLite's `DATE(x)` / `TIME(x)` on the timestamps this
program writes (`"YYYY-MM-DD HH:MM"` built in `handle_medicines`, or NULL)
are modelled by storing the scheduled timestamp as the pair of its date and
time-of-day parts; `schedTimeText` recovers the stored TEXT value.
Numeric division and `round(x, 2)` are modelled over `ℚ`.
-/

namespace MedTracker

/-- A row of the `medicines` table.  `schedule` is stored in the table as a
JSON array of strings; it is modelled directly as the list. -/
structure Medicine where
  id : Nat
  name : String
  dosage : String
  times_per_day : Int
  schedule : List String
  start_date : String
  end_date : String
  frequency : String
  instructions : String
  created_at : String
  is_active : Bool
deriving Repr, DecidableEq

/-- A row of the `logs` table.  `scheduled_time` is NULL (`none`) or the
TEXT `date ++ " " ++ slot`, modelled as the pair `(date, slot)`. -/
structure LogEntry where
  id : Nat
  medicine_id : Option Nat
  medicine_name : String
  dosage : String
  scheduled_time : Option (String × String)
  taken_time : Option String
  status : String
  notes : String
  created_at : String
deriving Repr, DecidableEq

/-- The TEXT value of a log's `scheduled_time` column (NULL for `none`). -/
def schedTimeText (l : LogEntry) : Option String :=
  l.scheduled_time.map (fun p => p.1 ++ " " ++ p.2)

/-- The database: the two row stores plus the AUTOINCREMENT counters. -/
structure DB where
  medicines : List Medicine
  logs : List LogEntry
  nextMedId : Nat
  nextLogId : Nat
deriving Repr, DecidableEq

/-- A JSON response together with its status code, restricted to the shapes
the handlers produce. -/
inductive Resp where
  | ok : String → Resp
  | okCreated : String → Nat → Resp
  | badRequest : String → Resp
  | serverError : String → Resp
deriving Repr, DecidableEq

/-- Whether a response is a 400 client (validation) error. -/
def Resp.isClientError : Resp → Bool
  | .badRequest _ => true
  | _ => false

/-- The JSON body of POST `/api/medicines`.  `none` models an absent key;
`schedule` is typed as a string list (the handler separately rejects
non-list values, a branch outside the shapes this model ranges over). -/
structure CreateReq where
  name : Option String
  dosage : Option String
  times_per_day : Option Int
  schedule : Option (List String)
  start_date : Option String
  end_date : Option String
  frequency : Option String
  instructions : Option String
deriving Repr, DecidableEq

/-- Python falsiness of `data.get(field)` for a string field:
absent, `None`, or the empty string. -/
def falsyS : Option String → Bool
  | none => true
  | some s => s == ""

/-- Python falsiness for an integer field: absent, `None`, or `0`. -/
def falsyI : Option Int → Bool
  | none => true
  | some n => n == 0

/-- Python falsiness for a list field: absent, `None`, or the empty list. -/
def falsyL : Option (List String) → Bool
  | none => true
  | some l => l.isEmpty

/-- The `for field in required_fields` loop of `handle_medicines` POST:
the first required field whose value is falsy, in the list's order
`name, dosage, times_per_day, schedule, start_date`. -/
def firstMissing (r : CreateReq) : Option String :=
  if falsyS r.name then some "name"
  else if falsyS r.dosage then some "dosage"
  else if falsyI r.times_per_day then some "times_per_day"
  else if falsyL r.schedule then some "schedule"
  else if falsyS r.start_date then some "start_date"
  else none

/-- One generated log row (`INSERT INTO logs` inside the creation loop). -/
def mkLog (lid mid : Nat) (nm dsg today slot nowTs : String) : LogEntry :=
  { id := lid, medicine_id := some mid, medicine_name := nm, dosage := dsg,
    scheduled_time := some (today, slot), taken_time := none,
    status := "pending", notes := "", created_at := nowTs }

/-- The creation loop `for time_slot in data['schedule']`: one pending log
row per slot, ids assigned in order starting at `startId`. -/
def genLogs (startId mid : Nat) (nm dsg today nowTs : String) :
    List String → List LogEntry
  | [] => []
  | slot :: rest =>
      mkLog startId mid nm dsg today slot nowTs ::
        genLogs (startId + 1) mid nm dsg today nowTs rest

/-- POST `/api/medicines` (`handle_medicines`, POST branch): required-field
check, schedule-length validation, then insertion of the medicine and of
today's pending log rows.  `today` is `datetime.now().strftime('%Y-%m-%d')`
and `nowTs` the row-creation timestamp (`CURRENT_TIMESTAMP`). -/
def handle_medicines_post (today nowTs : String) (r : CreateReq) (db : DB) :
    DB × Resp :=
  match firstMissing r with
  | some f => (db, .badRequest ("Missing required field: " ++ f))
  | none =>
      let sched := r.schedule.getD []
      let tpd := r.times_per_day.getD 0
      if (sched.length : Int) ≠ tpd then
        (db, .badRequest ("Expected " ++ toString tpd ++ " time slots, got "
          ++ toString sched.length))
      else
        let nm := (r.name.getD "").trim
        let dsg := (r.dosage.getD "").trim
        let mid := db.nextMedId
        let med : Medicine :=
          { id := mid, name := nm, dosage := dsg, times_per_day := tpd,
            schedule := sched, start_date := r.start_date.getD "",
            end_date := r.end_date.getD "", frequency := r.frequency.getD "daily",
            instructions := r.instructions.getD "", created_at := nowTs,
            is_active := true }
        ({ medicines := db.medicines ++ [med],
           logs := db.logs ++ genLogs db.nextLogId mid nm dsg today nowTs sched,
           nextMedId := mid + 1,
           nextLogId := db.nextLogId + sched.length },
         .okCreated "Medicine added successfully" mid)

/-- The JSON body of PUT `/api/medicines/<id>`; the handler indexes
`data['name']`, `data['dosage']`, `data['times_per_day']`, `data['schedule']`,
`data['start_date']` directly, so those are plain fields, and uses
`data.get` defaults for the rest. -/
structure UpdateReq where
  name : String
  dosage : String
  times_per_day : Int
  schedule : List String
  start_date : String
  end_date : Option String
  frequency : Option String
  instructions : Option String
deriving Repr, DecidableEq

/-- PUT `/api/medicines/<id>` (`manage_medicine`, PUT branch): a single SQL
UPDATE of the listed columns on every row whose id matches; no validation. -/
def manage_medicine_put (mid : Nat) (r : UpdateReq) (db : DB) : DB × Resp :=
  ({ db with medicines := db.medicines.map (fun m =>
      if m.id = mid then
        { m with
          name := r.name.trim, dosage := r.dosage.trim,
          times_per_day := r.times_per_day, schedule := r.schedule,
          start_date := r.start_date, end_date := r.end_date.getD "",
          frequency := r.frequency.getD "daily",
          instructions := r.instructions.getD "" }
      else m) },
   .ok "Medicine updated successfully")

/-- DELETE `/api/medicines/<id>` (`manage_medicine`, DELETE branch):
`UPDATE medicines SET is_active = 0 WHERE id = ?`. -/
def manage_medicine_delete (mid : Nat) (db : DB) : DB × Resp :=
  ({ db with medicines := db.medicines.map (fun m =>
      if m.id = mid then { m with is_active := false } else m) },
   .ok "Medicine deleted successfully")

/-- Insert `a` into `l` keeping elements that `le`-precede it in front. -/
def insertBy (le : α → α → Bool) (a : α) : List α → List α
  | [] => [a]
  | b :: bs => if le a b then a :: b :: bs else b :: insertBy le a bs

/-- Insertion sort by the Boolean relation `le`; models SQL `ORDER BY`
(the claims below depend only on the membership of the result). -/
def sortBy (le : α → α → Bool) : List α → List α
  | [] => []
  | a :: as => insertBy le a (sortBy le as)

/-- GET `/api/medicines`:
`SELECT * FROM medicines WHERE is_active = 1 ORDER BY name`. -/
def activeMedicines (db : DB) : List Medicine :=
  sortBy (fun a b => decide (a.name ≤ b.name)) (db.medicines.filter (·.is_active))

/-- GET `/api/logs` (history): rows with `DATE(l.scheduled_time) >= since`
ordered by `scheduled_time DESC`.  A NULL `scheduled_time` fails the SQL
comparison and is excluded.  The query LEFT JOINs `medicines` for `m.name`,
but the response is built from the `l.*` columns only (`row[2]` is the
denormalized `l.medicine_name`), so with the model's unique medicine ids
the output is a function of the logs alone. -/
def historyLogs (since : String) (logs : List LogEntry) : List LogEntry :=
  sortBy (fun a b => decide ((schedTimeText b).getD "" ≤ (schedTimeText a).getD ""))
    (logs.filter (fun l =>
      match l.scheduled_time with
      | none => false
      | some p => decide (since ≤ p.1)))

/-- The JSON body of POST `/api/logs`.  `log_id = some _` models the key
being present (`'log_id' in data`). -/
structure LogMutReq where
  log_id : Option Nat
  status : Option String
  notes : Option String
  medicine_name : Option String
  dosage : Option String
deriving Repr, DecidableEq

/-- POST `/api/logs` (`handle_logs`, POST branch).  With a `log_id`: one SQL
UPDATE setting `taken_time` (now iff the requested status is `taken`),
`status` (default `taken`) and `notes` on every row whose id matches.
Without: insert an ad-hoc row with NULL `medicine_id` and `scheduled_time`,
`taken_time = now`, status defaulting to `taken`.  `now` is
`datetime.now().strftime('%Y-%m-%d %H:%M:%S')` and `nowTs` the row-creation
timestamp. -/
def handle_logs_post (now nowTs : String) (r : LogMutReq) (db : DB) : DB × Resp :=
  match r.log_id with
  | some lid =>
      let tt : Option String := if r.status == some "taken" then some now else none
      ({ db with logs := db.logs.map (fun l =>
          if l.id = lid then
            { l with
              taken_time := tt, status := r.status.getD "taken",
              notes := r.notes.getD "" }
          else l) },
       .ok "Dose logged successfully")
  | none =>
      match r.medicine_name, r.dosage with
      | some nm, some dg =>
          ({ db with
             logs := db.logs ++
               [{ id := db.nextLogId, medicine_id := none, medicine_name := nm,
                  dosage := dg, scheduled_time := none, taken_time := some now,
                  status := r.status.getD "taken", notes := r.notes.getD "",
                  created_at := nowTs }],
             nextLogId := db.nextLogId + 1 },
           .ok "Dose logged successfully")
      | _, _ => (db, .serverError "KeyError")

/-- SQLite `TIME(x)` on the time-of-day values this program writes:
a well-formed `"HH:MM"` is normalized to `"HH:MM:SS"` by appending `":00"`;
a value already carrying seconds is returned unchanged. -/
def timeNorm (t : String) : String :=
  if t.length = 5 then t ++ ":00" else t

/-- `DATE(l.scheduled_time) = d` (false on NULL). -/
def schedDateIs (l : LogEntry) (d : String) : Bool :=
  match l.scheduled_time with
  | none => false
  | some p => p.1 == d

/-- `DATE(l.scheduled_time) >= d` (false on NULL). -/
def schedDateGe (l : LogEntry) (d : String) : Bool :=
  match l.scheduled_time with
  | none => false
  | some p => decide (d ≤ p.1)

/-- `TIME(l.scheduled_time) > TIME(nowTime)` where `nowTime` is already in
`HH:MM:SS` form (false on NULL). -/
def schedTimeAfter (l : LogEntry) (nowTime : String) : Bool :=
  match l.scheduled_time with
  | none => false
  | some p => decide (nowTime < timeNorm p.2)

/-- The LEFT JOIN filter `(m.is_active = 1 OR m.is_active IS NULL)`:
true when the log has no medicine link, a dangling link, or an active
medicine (medicine ids are unique in this model). -/
def medActiveOrAbsent (db : DB) (l : LogEntry) : Bool :=
  match l.medicine_id with
  | none => true
  | some mid =>
      match db.medicines.find? (fun m => m.id == mid) with
      | none => true
      | some m => m.is_active

/-- `total_today` of `/api/statistics`: today's logs passing the
active-or-null filter. -/
def totalToday (db : DB) (today : String) : Nat :=
  db.logs.countP (fun l => schedDateIs l today && medActiveOrAbsent db l)

/-- `taken_today` of `/api/statistics`. -/
def takenToday (db : DB) (today : String) : Nat :=
  db.logs.countP (fun l =>
    schedDateIs l today && l.status == "taken" && medActiveOrAbsent db l)

/-- `total_week` of `/api/statistics` (window since `weekAgo`). -/
def totalWeek (db : DB) (weekAgo : String) : Nat :=
  db.logs.countP (fun l => schedDateGe l weekAgo && medActiveOrAbsent db l)

/-- `taken_week` of `/api/statistics`. -/
def takenWeek (db : DB) (weekAgo : String) : Nat :=
  db.logs.countP (fun l =>
    schedDateGe l weekAgo && l.status == "taken" && medActiveOrAbsent db l)

/-- `upcoming_today` of `/api/statistics`, conjuncts in the WHERE order of
the query. -/
def upcomingToday (db : DB) (today nowTime : String) : Nat :=
  db.logs.countP (fun l =>
    schedDateIs l today && l.status == "pending" && schedTimeAfter l nowTime
      && medActiveOrAbsent db l)

/-- Python `round(q, 2)` over `ℚ`. -/
def round2 (q : ℚ) : ℚ := ((round (q * 100) : ℤ) : ℚ) / 100

/-- The statistics JSON. -/
structure Stats where
  total_medicines : Nat
  taken_today : Nat
  total_today : Nat
  adherence_rate : ℚ
  taken_this_week : Nat
  upcoming_today : Nat
deriving Repr, DecidableEq

/-- GET `/api/statistics` (`get_statistics`).  `today` and `weekAgo` are the
`%Y-%m-%d` renderings of now and now minus 7 days; `nowTime` is the
`%H:%M:%S` rendering of now. -/
def get_statistics (today weekAgo nowTime : String) (db : DB) : Stats :=
  { total_medicines := (db.medicines.filter (·.is_active)).length,
    taken_today := takenToday db today,
    total_today := totalToday db today,
    adherence_rate :=
      if totalWeek db weekAgo > 0 then
        round2 (((takenWeek db weekAgo : ℚ) / (totalWeek db weekAgo : ℚ)) * 100)
      else 0,
    taken_this_week := takenWeek db weekAgo,
    upcoming_today := upcomingToday db today nowTime }

/-- A default log row, used only as the `List.getD` fallback. -/
def dLog : LogEntry :=
  { id := 0, medicine_id := none, medicine_name := "", dosage := "",
    scheduled_time := none, taken_time := none, status := "", notes := "",
    created_at := "" }

/-- A default medicine row, used only as the `List.getD` fallback. -/
def dMed : Medicine :=
  { id := 0, name := "", dosage := "", times_per_day := 0, schedule := [],
    start_date := "", end_date := "", frequency := "", instructions := "",
    created_at := "", is_active := false }

/-! ### General list lemmas -/

theorem countP_mono_of_imp {α : Type _} (p q : α → Bool) (l : List α)
    (h : ∀ a ∈ l, p a = true → q a = true) : l.countP p ≤ l.countP q := by
  induction l with
  | nil => simp
  | cons a as ih =>
      rw [List.countP_cons, List.countP_cons]
      have hrec := ih (fun x hx hp => h x (List.mem_cons_of_mem a hx) hp)
      cases hpa : p a with
      | false => simp; omega
      | true =>
          have hqa := h a (List.mem_cons_self a as) hpa
          simp [hqa]; omega

theorem countP_congr_of_eq {α : Type _} (p q : α → Bool) (l : List α)
    (h : ∀ a ∈ l, p a = q a) : l.countP p = l.countP q := by
  induction l with
  | nil => rfl
  | cons a as ih =>
      rw [List.countP_cons, List.countP_cons,
        h a (List.mem_cons_self a as),
        ih (fun x hx => h x (List.mem_cons_of_mem a hx))]

theorem mem_insertBy {α : Type _} (le : α → α → Bool) (a x : α) (l : List α) :
    x ∈ insertBy le a l ↔ x = a ∨ x ∈ l := by
  induction l with
  | nil => simp [insertBy]
  | cons b bs ih =>
      by_cases h : le a b = true
      · simp [insertBy, h]
      · simp [insertBy, h, ih]
        tauto

theorem mem_sortBy {α : Type _} (le : α → α → Bool) (x : α) (l : List α) :
    x ∈ sortBy le l ↔ x ∈ l := by
  induction l with
  | nil => simp [sortBy]
  | cons a as ih => simp [sortBy, mem_insertBy, ih]

theorem map_eq_self_of_fix {α : Type _} (f : α → α) (l : List α)
    (h : ∀ a ∈ l, f a = a) : l.map f = l := by
  induction l with
  | nil => rfl
  | cons a as ih =>
      simp only [List.map_cons, h a (List.mem_cons_self a as),
        ih (fun x hx => h x (List.mem_cons_of_mem a hx))]

theorem getD_append_add {α : Type _} (l1 l2 : List α) (i : Nat) (d : α) :
    (l1 ++ l2).getD (l1.length + i) d = l2.getD i d := by
  induction l1 with
  | nil => simp
  | cons a as ih => simpa [Nat.succ_add] using ih

theorem take_append_self {α : Type _} (l1 l2 : List α) :
    (l1 ++ l2).take l1.length = l1 := by
  induction l1 with
  | nil => simp
  | cons a as ih => simp [ih]

/-! ### Lemmas about the generated log rows -/

theorem genLogs_length (s m : Nat) (nm dsg today nowTs : String)
    (slots : List String) :
    (genLogs s m nm dsg today nowTs slots).length = slots.length := by
  induction slots generalizing s with
  | nil => rfl
  | cons a as ih => simp [genLogs, ih]

theorem genLogs_getD (s m : Nat) (nm dsg today nowTs : String)
    (slots : List String) (i : Nat) (h : i < slots.length) :
    (genLogs s m nm dsg today nowTs slots).getD i dLog =
      mkLog (s + i) m nm dsg today (slots.getD i "") nowTs := by
  induction slots generalizing s i with
  | nil => cases h
  | cons a as ih =>
      cases i with
      | zero => simp [genLogs]
      | succ j =>
          have hj : j < as.length := by simpa [Nat.succ_lt_succ_iff] using h
          rw [genLogs, List.getD_cons_succ, List.getD_cons_succ, ih (s + 1) j hj]
          congr 1
          omega

/-! ### Concrete sample data for witnesses and counterexamples -/

/-- The empty database right after `init_db`. -/
def emptyDB : DB := { medicines := [], logs := [], nextMedId := 1, nextLogId := 1 }

/-- A well-formed creation request: two slots, `times_per_day = 2`. -/
def reqOk : CreateReq :=
  { name := some "Aspirin", dosage := some "100mg", times_per_day := some 2,
    schedule := some ["08:00", "20:00"], start_date := some "2024-01-01",
    end_date := none, frequency := none, instructions := none }

/-- A creation request whose schedule length `1` differs from
`times_per_day = 2`. -/
def reqMismatch : CreateReq :=
  { name := some "Aspirin", dosage := some "100mg", times_per_day := some 2,
    schedule := some ["08:00"], start_date := some "2024-01-01",
    end_date := none, frequency := none, instructions := none }

/-- A creation request with `times_per_day = 0` (falsy) and a one-slot
schedule. -/
def reqZeroTpd : CreateReq :=
  { name := some "Aspirin", dosage := some "100mg", times_per_day := some 0,
    schedule := some ["08:00"], start_date := some "2024-01-01",
    end_date := none, frequency := none, instructions := none }

/-- A stored medicine satisfying the schedule-length invariant. -/
def medW : Medicine :=
  { id := 1, name := "Aspirin", dosage := "100mg", times_per_day := 2,
    schedule := ["08:00", "20:00"], start_date := "2024-01-01", end_date := "",
    frequency := "daily", instructions := "", created_at := "ts",
    is_active := true }

/-- A database holding `medW` and its two pending log rows for 2024-01-02. -/
def dbW : DB :=
  { medicines := [medW],
    logs := [mkLog 1 1 "Aspirin" "100mg" "2024-01-02" "08:00" "ts",
             mkLog 2 1 "Aspirin" "100mg" "2024-01-02" "20:00" "ts"],
    nextMedId := 2, nextLogId := 3 }

/-- An update request violating the invariant: one slot, `times_per_day = 2`. -/
def updBad : UpdateReq :=
  { name := "Aspirin", dosage := "100mg", times_per_day := 2,
    schedule := ["08:00"], start_date := "2024-01-01",
    end_date := none, frequency := none, instructions := none }

/-- A log mutation marking log 1 as taken. -/
def reqMark : LogMutReq :=
  { log_id := some 1, status := some "taken", notes := some "after food",
    medicine_name := none, dosage := none }

/-- A log mutation naming the absent log id 99. -/
def reqMark99 : LogMutReq :=
  { log_id := some 99, status := some "taken", notes := none,
    medicine_name := none, dosage := none }

/-! ### Claims -/

/-- C1: an accepted medicine-creation request with schedule list `s` of
length `n` inserts exactly `n` log rows, appended after the pre-existing
rows in schedule-array order; the `i`-th new row has `scheduled_time`
equal to today's date, a space, and the `i`-th slot, status `pending`, and
`medicine_name` / `dosage` equal to the stored Medicine snapshot's values
(the whitespace-trimmed request strings). -/
theorem C1_create_generates_todays_logs (today nowTs : String) (r : CreateReq)
    (db : DB) (hmiss : firstMissing r = none)
    (hlen : ((r.schedule.getD []).length : Int) = r.times_per_day.getD 0) :
    (handle_medicines_post today nowTs r db).1.logs.length =
      db.logs.length + (r.schedule.getD []).length ∧
    (handle_medicines_post today nowTs r db).1.logs.take db.logs.length =
      db.logs ∧
    ∀ i, i < (r.schedule.getD []).length →
      ((handle_medicines_post today nowTs r db).1.logs.getD
          (db.logs.length + i) dLog).scheduled_time =
        some (today, (r.schedule.getD []).getD i "") ∧
      schedTimeText ((handle_medicines_post today nowTs r db).1.logs.getD
          (db.logs.length + i) dLog) =
        some (today ++ " " ++ (r.schedule.getD []).getD i "") ∧
      ((handle_medicines_post today nowTs r db).1.logs.getD
          (db.logs.length + i) dLog).status = "pending" ∧
      ((handle_medicines_post today nowTs r db).1.logs.getD
          (db.logs.length + i) dLog).medicine_name = (r.name.getD "").trim ∧
      ((handle_medicines_post today nowTs r db).1.logs.getD
          (db.logs.length + i) dLog).dosage = (r.dosage.getD "").trim ∧
      ((handle_medicines_post today nowTs r db).1.logs.getD
          (db.logs.length + i) dLog).medicine_name =
        ((handle_medicines_post today nowTs r db).1.medicines.getD
          db.medicines.length dMed).name ∧
      ((handle_medicines_post today nowTs r db).1.logs.getD
          (db.logs.length + i) dLog).dosage =
        ((handle_medicines_post today nowTs r db).1.medicines.getD
          db.medicines.length dMed).dosage := by
  have hout : handle_medicines_post today nowTs r db =
      ({ medicines := db.medicines ++
           [{ id := db.nextMedId, name := (r.name.getD "").trim,
              dosage := (r.dosage.getD "").trim,
              times_per_day := r.times_per_day.getD 0,
              schedule := r.schedule.getD [],
              start_date := r.start_date.getD "", end_date := r.end_date.getD "",
              frequency := r.frequency.getD "daily",
              instructions := r.instructions.getD "", created_at := nowTs,
              is_active := true }],
         logs := db.logs ++ genLogs db.nextLogId db.nextMedId
           ((r.name.getD "").trim) ((r.dosage.getD "").trim) today nowTs
           (r.schedule.getD []),
         nextMedId := db.nextMedId + 1,
         nextLogId := db.nextLogId + (r.schedule.getD []).length },
       .okCreated "Medicine added successfully" db.nextMedId) := by
    rw [handle_medicines_post, hmiss]
    simp [hlen]
  refine ⟨?_, ?_, ?_⟩
  · rw [hout]
    simp [genLogs_length]
  · rw [hout]
    simp only []
    exact take_append_self db.logs _
  · intro i hi
    have hget : (handle_medicines_post today nowTs r db).1.logs.getD
        (db.logs.length + i) dLog =
        mkLog (db.nextLogId + i) db.nextMedId ((r.name.getD "").trim)
          ((r.dosage.getD "").trim) today ((r.schedule.getD []).getD i "")
          nowTs := by
      rw [hout]
      simp only [getD_append_add]
      exact genLogs_getD _ _ _ _ _ _ _ i hi
    have hmed : (handle_medicines_post today nowTs r db).1.medicines.getD
        db.medicines.length dMed =
        { id := db.nextMedId, name := (r.name.getD "").trim,
          dosage := (r.dosage.getD "").trim,
          times_per_day := r.times_per_day.getD 0,
          schedule := r.schedule.getD [],
          start_date := r.start_date.getD "", end_date := r.end_date.getD "",
          frequency := r.frequency.getD "daily",
          instructions := r.instructions.getD "", created_at := nowTs,
          is_active := true } := by
      rw [hout]
      have := getD_append_add db.medicines
        [{ id := db.nextMedId, name := (r.name.getD "").trim,
           dosage := (r.dosage.getD "").trim,
           times_per_day := r.times_per_day.getD 0,
           schedule := r.schedule.getD [],
           start_date := r.start_date.getD "", end_date := r.end_date.getD "",
           frequency := r.frequency.getD "daily",
           instructions := r.instructions.getD "", created_at := nowTs,
           is_active := true }] 0 dMed
      rw [Nat.add_zero] at this
      exact this
    rw [hget, hmed]
    exact ⟨rfl, rfl, rfl, rfl, rfl, rfl, rfl⟩

/-- C1 witness: the theorem instantiated at `reqOk` on the empty database. -/
theorem C1_witness :
    (handle_medicines_post "2024-01-02" "ts" reqOk emptyDB).1.logs.length =
      emptyDB.logs.length + (reqOk.schedule.getD []).length ∧
    (handle_medicines_post "2024-01-02" "ts" reqOk emptyDB).1.logs.take
      emptyDB.logs.length = emptyDB.logs ∧
    ∀ i, i < (reqOk.schedule.getD []).length →
      ((handle_medicines_post "2024-01-02" "ts" reqOk emptyDB).1.logs.getD
          (emptyDB.logs.length + i) dLog).scheduled_time =
        some ("2024-01-02", (reqOk.schedule.getD []).getD i "") ∧
      schedTimeText ((handle_medicines_post "2024-01-02" "ts" reqOk
          emptyDB).1.logs.getD (emptyDB.logs.length + i) dLog) =
        some ("2024-01-02" ++ " " ++ (reqOk.schedule.getD []).getD i "") ∧
      ((handle_medicines_post "2024-01-02" "ts" reqOk emptyDB).1.logs.getD
          (emptyDB.logs.length + i) dLog).status = "pending" ∧
      ((handle_medicines_post "2024-01-02" "ts" reqOk emptyDB).1.logs.getD
          (emptyDB.logs.length + i) dLog).medicine_name =
        (reqOk.name.getD "").trim ∧
      ((handle_medicines_post "2024-01-02" "ts" reqOk emptyDB).1.logs.getD
          (emptyDB.logs.length + i) dLog).dosage = (reqOk.dosage.getD "").trim ∧
      ((handle_medicines_post "2024-01-02" "ts" reqOk emptyDB).1.logs.getD
          (emptyDB.logs.length + i) dLog).medicine_name =
        ((handle_medicines_post "2024-01-02" "ts" reqOk
          emptyDB).1.medicines.getD emptyDB.medicines.length dMed).name ∧
      ((handle_medicines_post "2024-01-02" "ts" reqOk emptyDB).1.logs.getD
          (emptyDB.logs.length + i) dLog).dosage =
        ((handle_medicines_post "2024-01-02" "ts" reqOk
          emptyDB).1.medicines.getD emptyDB.medicines.length dMed).dosage :=
  C1_create_generates_todays_logs "2024-01-02" "ts" reqOk emptyDB
    (by decide) (by decide)

/-- C2 counterexample: the claim also asserts the schedule-length invariant
is enforced at medicine update time, but `manage_medicine` PUT performs no
validation: updating medicine 1 with `times_per_day = 2` and the one-slot
schedule `["08:00"]` succeeds and stores a violating medicine. -/
theorem C2_counterexample :
    (manage_medicine_put 1 updBad dbW).2 = .ok "Medicine updated successfully" ∧
    ((manage_medicine_put 1 updBad dbW).1.medicines.getD 0 dMed).schedule.length
      = 1 ∧
    ((manage_medicine_put 1 updBad dbW).1.medicines.getD 0 dMed).times_per_day
      = 2 ∧
    ¬ ((((manage_medicine_put 1 updBad dbW).1.medicines.getD 0
          dMed).schedule.length : Int) =
        ((manage_medicine_put 1 updBad dbW).1.medicines.getD 0
          dMed).times_per_day) := by
  refine ⟨rfl, rfl, rfl, ?_⟩
  decide

/-- C2 (amended): the invariant `len(schedule) == times_per_day` is enforced
at creation time only: a violating creation request is rejected with a 400
validation error and inserts no medicine and no log rows, and every medicine
the creation path stores satisfies the invariant; the update path performs
no such validation. -/
theorem C2_creation_invariant (today nowTs : String) (r : CreateReq) (db : DB) :
    (((r.schedule.getD []).length : Int) ≠ r.times_per_day.getD 0 →
      (handle_medicines_post today nowTs r db).1 = db ∧
      ((handle_medicines_post today nowTs r db).2).isClientError = true) ∧
    (∀ m ∈ (handle_medicines_post today nowTs r db).1.medicines,
      m ∈ db.medicines ∨ (m.schedule.length : Int) = m.times_per_day) := by
  constructor
  · intro hviol
    rw [handle_medicines_post]
    cases hm : firstMissing r with
    | some f => exact ⟨rfl, rfl⟩
    | none => simp [hviol, Resp.isClientError]
  · intro m hm
    rw [handle_medicines_post] at hm
    cases hfm : firstMissing r with
    | some f =>
        rw [hfm] at hm
        exact Or.inl hm
    | none =>
        rw [hfm] at hm
        simp only [] at hm
        by_cases hl : ((r.schedule.getD []).length : Int) = r.times_per_day.getD 0
        · rw [if_neg (by simpa using hl)] at hm
          simp only [List.mem_append, List.mem_singleton] at hm
          cases hm with
          | inl h => exact Or.inl h
          | inr h => exact Or.inr (by rw [h]; exact hl)
        · rw [if_pos (by simpa using hl)] at hm
          exact Or.inl hm

/-- C2 witness: the amended theorem instantiated at the mismatched request
`reqMismatch` on `dbW`. -/
theorem C2_witness :
    (handle_medicines_post "2024-01-02" "ts" reqMismatch dbW).1 = dbW ∧
    ((handle_medicines_post "2024-01-02" "ts" reqMismatch dbW).2).isClientError
      = true :=
  (C2_creation_invariant "2024-01-02" "ts" reqMismatch dbW).1 (by decide)

/-- C3: the adherence rate of `/api/statistics` equals
`round(100 * taken / total, 2)` when the 7-day total is positive and `0`
when it is zero; the computation is a total function, so the zero case
yields `0` rather than a division error. -/
theorem C3_adherence_rate (today weekAgo nowTime : String) (db : DB) :
    (totalWeek db weekAgo = 0 →
      (get_statistics today weekAgo nowTime db).adherence_rate = 0) ∧
    (0 < totalWeek db weekAgo →
      (get_statistics today weekAgo nowTime db).adherence_rate =
        round2 (100 * (takenWeek db weekAgo : ℚ) / (totalWeek db weekAgo : ℚ))) := by
  constructor
  · intro h
    simp [get_statistics, h]
  · intro h
    simp only [get_statistics, if_pos h]
    congr 1
    ring

/-- C3 witness: on the empty database the 7-day total is `0` and the rate
is `0`. -/
theorem C3_witness :
    totalWeek emptyDB "2023-12-26" = 0 ∧
    (get_statistics "2024-01-02" "2023-12-26" "12:00:00" emptyDB).adherence_rate
      = 0 :=
  ⟨rfl, (C3_adherence_rate "2024-01-02" "2023-12-26" "12:00:00" emptyDB).1 rfl⟩

/-- C4: a log mutation carrying a `log_id` updates exactly the rows with
that id, in place: if the requested status is `taken` the row's status
becomes `taken` and its `taken_time` the current (non-null) timestamp; if
the requested status is `skipped` the status becomes `skipped` and
`taken_time` is left null; the notes are overwritten in both cases, and
rows with a different id are untouched. -/
theorem C4_mark_taken_skipped (now nowTs : String) (db : DB) (r : LogMutReq)
    (lid : Nat) (hid : r.log_id = some lid) :
    (handle_logs_post now nowTs r db).1.logs.length = db.logs.length ∧
    (∀ l ∈ db.logs, l.id ≠ lid → l ∈ (handle_logs_post now nowTs r db).1.logs) ∧
    (∀ l ∈ (handle_logs_post now nowTs r db).1.logs, l.id = lid →
      l.notes = r.notes.getD "" ∧
      (r.status = some "taken" → l.status = "taken" ∧ l.taken_time = some now) ∧
      (r.status = some "skipped" →
        l.status = "skipped" ∧ l.taken_time = none)) := by
  rw [handle_logs_post, hid]
  refine ⟨by simp, ?_, ?_⟩
  · intro l hl hne
    simp only [List.mem_map]
    exact ⟨l, hl, by rw [if_neg hne]⟩
  · intro l hl hlid
    simp only [List.mem_map] at hl
    obtain ⟨l0, _, hml⟩ := hl
    by_cases h0 : l0.id = lid
    · rw [if_pos h0] at hml
      subst hml
      refine ⟨rfl, ?_, ?_⟩
      · intro hst
        exact ⟨by simp [hst], by simp [hst]⟩
      · intro hst
        exact ⟨by simp [hst], by simp [hst]⟩
    · rw [if_neg h0] at hml
      subst hml
      exact absurd hlid h0

/-- C4 witness: marking log 1 of `dbW` taken at `2024-01-02 09:00:00`. -/
theorem C4_witness :
    (handle_logs_post "2024-01-02 09:00:00" "ts" reqMark dbW).1.logs.length =
      dbW.logs.length ∧
    (∀ l ∈ dbW.logs, l.id ≠ 1 →
      l ∈ (handle_logs_post "2024-01-02 09:00:00" "ts" reqMark dbW).1.logs) ∧
    (∀ l ∈ (handle_logs_post "2024-01-02 09:00:00" "ts" reqMark
        dbW).1.logs, l.id = 1 →
      l.notes = reqMark.notes.getD "" ∧
      (reqMark.status = some "taken" →
        l.status = "taken" ∧ l.taken_time = some "2024-01-02 09:00:00") ∧
      (reqMark.status = some "skipped" →
        l.status = "skipped" ∧ l.taken_time = none)) :=
  C4_mark_taken_skipped "2024-01-02 09:00:00" "ts" dbW reqMark 1 rfl

/-- C5: in every statistics result, `taken_today ≤ total_today`: the rows
counted as taken today satisfy the same date and active-or-null-medicine
filters as today's total, with the extra `status = taken` condition. -/
theorem C5_taken_le_total (today weekAgo nowTime : String) (db : DB) :
    (get_statistics today weekAgo nowTime db).taken_today ≤
      (get_statistics today weekAgo nowTime db).total_today := by
  simp only [get_statistics, takenToday, totalToday]
  refine countP_mono_of_imp _ _ _ ?_
  intro l _ hp
  simp only [Bool.and_eq_true] at hp ⊢
  exact ⟨hp.1.1, hp.2⟩

/-- C5 witness: the theorem instantiated on `dbW`. -/
theorem C5_witness :
    (get_statistics "2024-01-02" "2023-12-26" "12:00:00" dbW).taken_today ≤
      (get_statistics "2024-01-02" "2023-12-26" "12:00:00" dbW).total_today :=
  C5_taken_le_total "2024-01-02" "2023-12-26" "12:00:00" dbW

/-- C6: a log mutation whose `log_id` matches no stored row leaves the
database completely unchanged and still returns the success response. -/
theorem C6_silent_noop (now nowTs : String) (db : DB) (r : LogMutReq)
    (lid : Nat) (hid : r.log_id = some lid)
    (habs : ∀ l ∈ db.logs, l.id ≠ lid) :
    handle_logs_post now nowTs r db = (db, .ok "Dose logged successfully") := by
  rw [handle_logs_post, hid]
  have hmap : db.logs.map (fun l =>
      if l.id = lid then
        { l with
          taken_time := if r.status == some "taken" then some now else none,
          status := r.status.getD "taken", notes := r.notes.getD "" }
      else l) = db.logs :=
    map_eq_self_of_fix _ _ (fun l hl => if_neg (habs l hl))
  show ({ db with logs := db.logs.map (fun l =>
      if l.id = lid then
        { l with
          taken_time := if r.status == some "taken" then some now else none,
          status := r.status.getD "taken", notes := r.notes.getD "" }
      else l) }, Resp.ok "Dose logged successfully") =
    (db, Resp.ok "Dose logged successfully")
  rw [hmap]

/-- C6 witness: mutating the absent log id 99 of `dbW`. -/
theorem C6_witness :
    handle_logs_post "2024-01-02 09:00:00" "ts" reqMark99 dbW =
      (dbW, .ok "Dose logged successfully") :=
  C6_silent_noop "2024-01-02 09:00:00" "ts" dbW reqMark99 99 rfl (by decide)

/-- C7: soft-deleting a medicine flips only its `is_active` flag to 0: the
response is success, no log row changes, the history output is unchanged
(its query does not filter on medicine activity), the medicine no longer
appears in the active list, other medicines are untouched, and any stored
row with the deleted id differs from its old value only in `is_active`. -/
theorem C7_soft_delete_frame (db : DB) (mid : Nat) :
    (manage_medicine_delete mid db).2 = .ok "Medicine deleted successfully" ∧
    (manage_medicine_delete mid db).1.logs = db.logs ∧
    (∀ since, historyLogs since (manage_medicine_delete mid db).1.logs =
       historyLogs since db.logs) ∧
    (∀ m ∈ activeMedicines (manage_medicine_delete mid db).1, m.id ≠ mid) ∧
    (∀ m ∈ db.medicines, m.id ≠ mid →
       m ∈ (manage_medicine_delete mid db).1.medicines) ∧
    (∀ m ∈ (manage_medicine_delete mid db).1.medicines, m.id = mid →
       ∃ m0, m0 ∈ db.medicines ∧ m0.id = mid ∧
         m = { m0 with is_active := false }) := by
  refine ⟨rfl, rfl, fun since => rfl, ?_, ?_, ?_⟩
  · intro m hm
    rw [activeMedicines, mem_sortBy, List.mem_filter] at hm
    obtain ⟨hmem, hact⟩ := hm
    simp only [manage_medicine_delete, List.mem_map] at hmem
    obtain ⟨m0, hm0, hfm⟩ := hmem
    by_cases h0 : m0.id = mid
    · rw [if_pos h0] at hfm
      subst hfm
      simp at hact
    · rw [if_neg h0] at hfm
      subst hfm
      exact h0
  · intro m hm hne
    simp only [manage_medicine_delete, List.mem_map]
    exact ⟨m, hm, if_neg hne⟩
  · intro m hm hmid
    simp only [manage_medicine_delete, List.mem_map] at hm
    obtain ⟨m0, hm0, hfm⟩ := hm
    by_cases h0 : m0.id = mid
    · rw [if_pos h0] at hfm
      exact ⟨m0, hm0, h0, hfm.symm⟩
    · rw [if_neg h0] at hfm
      subst hfm
      exact absurd hmid h0

/-- C7 witness: deleting medicine 1 from `dbW`. -/
theorem C7_witness :
    (manage_medicine_delete 1 dbW).2 = .ok "Medicine deleted successfully" ∧
    (manage_medicine_delete 1 dbW).1.logs = dbW.logs ∧
    (∀ since, historyLogs since (manage_medicine_delete 1 dbW).1.logs =
       historyLogs since dbW.logs) ∧
    (∀ m ∈ activeMedicines (manage_medicine_delete 1 dbW).1, m.id ≠ 1) ∧
    (∀ m ∈ dbW.medicines, m.id ≠ 1 →
       m ∈ (manage_medicine_delete 1 dbW).1.medicines) ∧
    (∀ m ∈ (manage_medicine_delete 1 dbW).1.medicines, m.id = 1 →
       ∃ m0, m0 ∈ dbW.medicines ∧ m0.id = 1 ∧
         m = { m0 with is_active := false }) :=
  C7_soft_delete_frame dbW 1

/-- C8: the statistics `upcoming_today` equals the number of log rows
scheduled on today's date, with status `pending`, whose medicine is active
or absent, and whose time-of-day, normalized to `HH:MM:SS`, is strictly
later than the current time-of-day. -/
theorem C8_upcoming_today (today weekAgo nowTime : String) (db : DB) :
    (get_statistics today weekAgo nowTime db).upcoming_today =
      db.logs.countP (fun l =>
        schedDateIs l today && (l.status == "pending")
          && medActiveOrAbsent db l && schedTimeAfter l nowTime) := by
  simp only [get_statistics, upcomingToday]
  refine countP_congr_of_eq _ _ _ ?_
  intro l _
  cases schedDateIs l today <;> cases l.status == "pending" <;>
    cases medActiveOrAbsent db l <;> cases schedTimeAfter l nowTime <;> rfl

/-- C8 witness: the theorem instantiated on `dbW` at noon. -/
theorem C8_witness :
    (get_statistics "2024-01-02" "2023-12-26" "12:00:00" dbW).upcoming_today =
      dbW.logs.countP (fun l =>
        schedDateIs l "2024-01-02" && (l.status == "pending")
          && medActiveOrAbsent dbW l && schedTimeAfter l "12:00:00") :=
  C8_upcoming_today "2024-01-02" "2023-12-26" "12:00:00" dbW

/-- An ad-hoc log request (no `log_id`) that asks for status `skipped`. -/
def reqAdhocSkipped : LogMutReq :=
  { log_id := none, status := some "skipped", notes := none,
    medicine_name := some "VitC", dosage := some "500mg" }

/-- C9 counterexample: the ad-hoc path does not always insert status
`taken` — `handle_logs` uses `data.get('status', 'taken')`, so an ad-hoc
request carrying `status = "skipped"` inserts a skipped entry (though its
`taken_time` is still set to now). -/
theorem C9_counterexample :
    ((handle_logs_post "2024-01-02 09:00:00" "ts" reqAdhocSkipped
        emptyDB).1.logs.getD 0 dLog).status = "skipped" ∧
    ¬ (((handle_logs_post "2024-01-02 09:00:00" "ts" reqAdhocSkipped
        emptyDB).1.logs.getD 0 dLog).status = "taken") ∧
    (handle_logs_post "2024-01-02 09:00:00" "ts" reqAdhocSkipped
        emptyDB).1.logs.length = 1 ∧
    ((handle_logs_post "2024-01-02 09:00:00" "ts" reqAdhocSkipped
        emptyDB).1.logs.getD 0 dLog).medicine_id = none := by
  exact ⟨rfl, by decide, rfl, rfl⟩

/-- C9 (amended): a log mutation without a `log_id` inserts exactly one new
log row with no medicine link, a null `scheduled_time`, `taken_time` set to
the current timestamp, notes as requested, and status equal to the
requested status, defaulting to `taken` when none is given. -/
theorem C9_adhoc_insert (now nowTs : String) (db : DB) (r : LogMutReq)
    (nm dg : String) (hlid : r.log_id = none)
    (hnm : r.medicine_name = some nm) (hdg : r.dosage = some dg) :
    handle_logs_post now nowTs r db =
      ({ db with
         logs := db.logs ++
           [{ id := db.nextLogId, medicine_id := none, medicine_name := nm,
              dosage := dg, scheduled_time := none, taken_time := some now,
              status := r.status.getD "taken", notes := r.notes.getD "",
              created_at := nowTs }],
         nextLogId := db.nextLogId + 1 }, .ok "Dose logged successfully") := by
  rw [handle_logs_post, hlid, hnm, hdg]

/-- C9 witness: the amended theorem instantiated at `reqAdhocSkipped` on the
empty database. -/
theorem C9_witness :
    handle_logs_post "2024-01-02 09:00:00" "ts" reqAdhocSkipped emptyDB =
      ({ emptyDB with
         logs := emptyDB.logs ++
           [{ id := emptyDB.nextLogId, medicine_id := none,
              medicine_name := "VitC", dosage := "500mg",
              scheduled_time := none, taken_time := some "2024-01-02 09:00:00",
              status := reqAdhocSkipped.status.getD "taken",
              notes := reqAdhocSkipped.notes.getD "",
              created_at := "ts" }],
         nextLogId := emptyDB.nextLogId + 1 }, .ok "Dose logged successfully") :=
  C9_adhoc_insert "2024-01-02 09:00:00" "ts" emptyDB reqAdhocSkipped
    "VitC" "500mg" rfl rfl rfl

/-- C10: a creation request with an absent or falsy required field (empty
string, empty list, zero, or null among `name, dosage, times_per_day,
schedule, start_date`) is rejected with a 400 missing-field error and
inserts nothing; in particular `times_per_day = 0` is reported as the
missing field `times_per_day`, not as a schedule-length mismatch. -/
theorem C10_missing_required_field (today nowTs : String) (r : CreateReq)
    (db : DB) :
    ((falsyS r.name || falsyS r.dosage || falsyI r.times_per_day ||
        falsyL r.schedule || falsyS r.start_date) = true →
      (handle_medicines_post today nowTs r db).1 = db ∧
      ∃ f, (handle_medicines_post today nowTs r db).2 =
        .badRequest ("Missing required field: " ++ f)) ∧
    (r.times_per_day = some 0 → falsyS r.name = false →
      falsyS r.dosage = false →
      handle_medicines_post today nowTs r db =
        (db, .badRequest "Missing required field: times_per_day")) := by
  constructor
  · intro hfal
    cases hfm : firstMissing r with
    | some f =>
        rw [handle_medicines_post, hfm]
        exact ⟨rfl, f, rfl⟩
    | none =>
        exfalso
        rw [firstMissing] at hfm
        split_ifs at hfm with h1 h2 h3 h4 h5
        simp only [Bool.or_eq_true] at hfal
        rcases hfal with ((((ha | hb) | hc) | hd) | he)
        exacts [h1 ha, h2 hb, h3 hc, h4 hd, h5 he]
  · intro ht hn hd
    have hti : falsyI r.times_per_day = true := by rw [ht]; rfl
    have hfm : firstMissing r = some "times_per_day" := by
      rw [firstMissing, hn, hd, hti]
      rfl
    rw [handle_medicines_post, hfm]
    rfl

/-- C10 witness: the request `reqZeroTpd` (with `times_per_day = 0` and a
one-slot schedule) is rejected as missing `times_per_day`. -/
theorem C10_witness :
    handle_medicines_post "2024-01-02" "ts" reqZeroTpd dbW =
      (dbW, .badRequest "Missing required field: times_per_day") :=
  (C10_missing_required_field "2024-01-02" "ts" reqZeroTpd dbW).2 rfl rfl rfl

end MedTracker
